import Mathlib

/-!
Verification of the space-operations CLI (scripts/space_operations.py).

The script is a thin client over a remote space-hosting API. We embed it
shallowly: the remote client handle (`HfApi` bound to a token) becomes an
abstract `Hub` record of fallible calls, Python attribute access on response
objects becomes `Option` field lookup (an unguarded access of an absent
attribute raises `AttributeError`, modelled as a generic exception), and each
operation returns its value together with the lines it printed to stdout and
stderr and the number of remote calls it made.
-/

namespace SpaceOps

/-- Exceptions that can escape a remote call or the normalization code.
`HfHubHTTPError` is the distinguished HTTP-level failure of the client
library; every other exception (AttributeError included) is `other`. -/
inductive PyErr where
  | http (msg : String)
  | other (msg : String)
deriving DecidableEq, Repr

/-- The message `str(e)` interpolated into the diagnostics. -/
def PyErr.msg : PyErr → String
  | .http m => m
  | .other m => m

/-- A runtime object of the remote response. Each field is `some v` when the
attribute is present (with Python value `v`) and `none` when absent.
`reprStr` stands for `str(runtime)`. -/
structure RuntimeObj where
  stage : Option String
  hardware : Option String
  requested_hardware : Option String
  sleep_time : Option Int
  reprStr : String
deriving DecidableEq, Repr

/-- A space object of the remote response (`SpaceInfo`). Each field is
`some v` when the attribute is present and `none` when absent; `lastModified`
holds the already-stringified timestamp. -/
structure SpaceObj where
  id : Option String
  author : Option String
  sha : Option String
  lastModified : Option String
  «private» : Option Bool
  likes : Option Int
  sdk : Option String
  sdk_version : Option String
  runtime : Option RuntimeObj
deriving DecidableEq, Repr

/-- Python attribute access without a `hasattr` guard: an absent attribute
raises `AttributeError`, which is not an `HfHubHTTPError`. -/
def getAttr {α : Type} (a : Option α) (name : String) : Except PyErr α :=
  match a with
  | some v => .ok v
  | none => .error (.other ("AttributeError: " ++ name))

/-- The remote API, as a fake client: one fallible call per endpoint. Every
method takes the token the `HfApi` handle was constructed with, then the
request parameters (`list_spaces` takes author, search, limit). -/
structure Hub where
  list_spaces : Option String → Option String → Option String → Int → Except PyErr (List SpaceObj)
  space_info : Option String → String → Except PyErr SpaceObj
  restart_space : Option String → String → Except PyErr Unit
  pause_space : Option String → String → Except PyErr Unit
  get_space_runtime : Option String → String → Except PyErr RuntimeObj

/-- Result of running one operation: its return value, the lines printed to
stdout and stderr, and how many remote API calls were attempted. -/
structure Eff (α : Type) where
  value : α
  out : List String
  err : List String
  calls : Nat
deriving DecidableEq, Repr

/-- Python truthiness of an `Optional[str]`: `None` and `""` are falsy. -/
def truthy : Option String → Bool
  | none => false
  | some s => !s.isEmpty

/-- The record built per space by `list_spaces` (the `space_dict`). -/
structure SpaceSummary where
  id : String
  author : String
  sha : String
  last_modified : Option String
  «private» : Bool
  likes : Int
  sdk : Option String
deriving DecidableEq, Repr

/-- The record built by `get_space_info` (the `info` dict). `runtime` is the
stage string of the nested runtime object, `hardware` its hardware field. -/
structure SpaceDetail where
  id : String
  author : String
  sha : String
  last_modified : Option String
  «private» : Bool
  likes : Int
  sdk : Option String
  sdk_version : Option String
  runtime : Option String
  hardware : Option String
deriving DecidableEq, Repr

/-- The record built by `get_space_runtime` (the `runtime_info` dict). -/
structure RuntimeStatus where
  stage : String
  hardware : Option String
  requested_hardware : Option String
  sleep_time : Option Int
  raw_data : String
deriving DecidableEq, Repr

/-- Body of the loop in `list_spaces`: builds one `space_dict`. The fields
`id`, `author`, `sha` are read without a presence guard (so an absent one
raises); the remaining fields are guarded by `hasattr` with defaults
`None`, `False`, `0`, `None`. -/
def buildSummary (space : SpaceObj) : Except PyErr SpaceSummary := do
  let i ← getAttr space.id "id"
  let a ← getAttr space.author "author"
  let s ← getAttr space.sha "sha"
  pure { id := i, author := a, sha := s,
         last_modified := space.lastModified,
         «private» := space.«private».getD false,
         likes := space.likes.getD 0,
         sdk := space.sdk }

/-- The `for space in spaces` loop of `list_spaces`: builds the dicts in
order; the first exception aborts the whole loop. -/
def buildSummaries : List SpaceObj → Except PyErr (List SpaceSummary)
  | [] => .ok []
  | space :: rest => do
    let d ← buildSummary space
    let ds ← buildSummaries rest
    pure (d :: ds)

/-- `list_spaces`: one remote catalog call, normalization of each returned
space, and a swallow-all handler that logs and returns the empty list. -/
def list_spaces (hub : Hub) (author search : Option String) (limit : Int)
    (token : Option String) : Eff (List SpaceSummary) :=
  match (hub.list_spaces token author search limit).bind buildSummaries with
  | .ok results => ⟨results, [], [], 1⟩
  | .error e => ⟨[], [], ["Error listing spaces: " ++ e.msg], 1⟩

/-- The `info` dict of `get_space_info`. `runtime` and `hardware` are doubly
guarded (`hasattr(space, runtime) and hasattr(space.runtime, field)`). -/
def buildDetail (space : SpaceObj) : Except PyErr SpaceDetail := do
  let i ← getAttr space.id "id"
  let a ← getAttr space.author "author"
  let s ← getAttr space.sha "sha"
  pure { id := i, author := a, sha := s,
         last_modified := space.lastModified,
         «private» := space.«private».getD false,
         likes := space.likes.getD 0,
         sdk := space.sdk,
         sdk_version := space.sdk_version,
         runtime := space.runtime.bind (fun r => r.stage),
         hardware := space.runtime.bind (fun r => r.hardware) }

/-- `get_space_info`: one fetch, normalization, `None` on any failure with an
HTTP failure logged differently from any other exception. -/
def get_space_info (hub : Hub) (space_id : String)
    (token : Option String) : Eff (Option SpaceDetail) :=
  match (hub.space_info token space_id).bind buildDetail with
  | .ok info => ⟨some info, [], [], 1⟩
  | .error (.http m) => ⟨none, [], ["Error getting space info: " ++ m], 1⟩
  | .error (.other m) => ⟨none, [], ["Unexpected error: " ++ m], 1⟩

/-- `restart_space`: requires a truthy token before any remote call; success
is absence of an exception. -/
def restart_space (hub : Hub) (space_id : String)
    (token : Option String) : Eff Bool :=
  if !truthy token then
    ⟨false, [], ["Error: Token is required to restart a space."], 0⟩
  else
    match hub.restart_space token space_id with
    | .ok _ => ⟨true, ["Successfully restarted space: " ++ space_id], [], 1⟩
    | .error (.http m) => ⟨false, [], ["Error restarting space: " ++ m], 1⟩
    | .error (.other m) => ⟨false, [], ["Unexpected error: " ++ m], 1⟩

/-- `pause_space`: same contract as `restart_space` against the pause
endpoint. -/
def pause_space (hub : Hub) (space_id : String)
    (token : Option String) : Eff Bool :=
  if !truthy token then
    ⟨false, [], ["Error: Token is required to pause a space."], 0⟩
  else
    match hub.pause_space token space_id with
    | .ok _ => ⟨true, ["Successfully paused space: " ++ space_id], [], 1⟩
    | .error (.http m) => ⟨false, [], ["Error pausing space: " ++ m], 1⟩
    | .error (.other m) => ⟨false, [], ["Unexpected error: " ++ m], 1⟩

/-- The `runtime_info` dict: `stage` is read without a guard, the rest are
guarded; `raw_data` is `str(runtime)`. -/
def buildRuntime (r : RuntimeObj) : Except PyErr RuntimeStatus := do
  let st ← getAttr r.stage "stage"
  pure { stage := st, hardware := r.hardware,
         requested_hardware := r.requested_hardware,
         sleep_time := r.sleep_time, raw_data := r.reprStr }

/-- `get_space_runtime`: one fetch, normalization, `None` on any failure. -/
def get_space_runtime (hub : Hub) (space_id : String)
    (token : Option String) : Eff (Option RuntimeStatus) :=
  match (hub.get_space_runtime token space_id).bind buildRuntime with
  | .ok r => ⟨some r, [], [], 1⟩
  | .error (.http m) => ⟨none, [], ["Error getting space runtime: " ++ m], 1⟩
  | .error (.other m) => ⟨none, [], ["Unexpected error: " ++ m], 1⟩

/-- `list_user_spaces`: delegates to `list_spaces` with the author bound to
the username, search left at its default `None`, and limit 100. -/
def list_user_spaces (hub : Hub) (username : String)
    (token : Option String) : Eff (List SpaceSummary) :=
  list_spaces hub (some username) none 100 token

/-- The two recognized environment variables; `none` means unset. -/
structure Env where
  hf_token : Option String
  huggingface_token : Option String
deriving DecidableEq, Repr

/-- Python `a or b` on two optional strings: returns `a` when it is truthy,
else `b` (which may itself be falsy). -/
def pyOr (a b : Option String) : Option String :=
  if truthy a then a else b

/-- The warning `get_token` prints when neither variable holds a truthy
value. -/
def tokenWarning : List String :=
  ["Warning: No HF_TOKEN or HUGGINGFACE_TOKEN found in environment.",
   "Some operations may require authentication."]

/-- `get_token`: reads `HF_TOKEN or HUGGINGFACE_TOKEN` and warns on stderr
when the result is falsy. -/
def get_token (env : Env) : Eff (Option String) :=
  let token := pyOr env.hf_token env.huggingface_token
  if !truthy token then ⟨token, [], tokenWarning, 0⟩
  else ⟨token, [], [], 0⟩

/-- Line 268 of `main`: `token = args.token or get_token()`. When the flag
is truthy it is used and `get_token` is not called (so no warning); else the
environment fallback runs. -/
def resolveToken (flag : Option String) (env : Env) : Eff (Option String) :=
  if truthy flag then ⟨flag, [], [], 0⟩
  else get_token env

/-- A parsed subcommand with its own arguments; `limit` defaults to 20 at
the parser, which is outside this model. -/
inductive Command where
  | list (author : Option String) (search : Option String) (limit : Int)
  | info (space_id : String)
  | restart (space_id : String)
  | pause (space_id : String)
  | runtime (space_id : String)
  | user (username : String)
deriving DecidableEq, Repr

/-- The help text `parser.print_help()` writes to stdout; its exact wording
is produced by argparse and is opaque to this model. -/
def usageText : String := "usage: space_operations [-h] [--token TOKEN] ..."

/-- Rendering of `json.dumps(summary, indent=2)` for one summary; the exact
JSON layout is the serializer library concern and no property here depends
on it, so we render fields in order. -/
def renderSummary (s : SpaceSummary) : String :=
  "id=" ++ s.id ++ ";author=" ++ s.author ++ ";sha=" ++ s.sha ++
  ";last_modified=" ++ (s.last_modified.getD "null") ++
  ";private=" ++ (if s.«private» then "true" else "false") ++
  ";likes=" ++ toString s.likes ++
  ";sdk=" ++ (s.sdk.getD "null")

/-- Rendering of the JSON array printed by the list and user commands. -/
def renderSummaries (l : List SpaceSummary) : String :=
  "[" ++ String.intercalate "," (l.map renderSummary) ++ "]"

/-- Rendering of the JSON object printed by the info command. -/
def renderDetail (d : SpaceDetail) : String :=
  "id=" ++ d.id ++ ";author=" ++ d.author ++ ";sha=" ++ d.sha ++
  ";last_modified=" ++ (d.last_modified.getD "null") ++
  ";private=" ++ (if d.«private» then "true" else "false") ++
  ";likes=" ++ toString d.likes ++
  ";sdk=" ++ (d.sdk.getD "null") ++
  ";sdk_version=" ++ (d.sdk_version.getD "null") ++
  ";runtime=" ++ (d.runtime.getD "null") ++
  ";hardware=" ++ (d.hardware.getD "null")

/-- Rendering of the JSON object printed by the runtime command. -/
def renderRuntime (r : RuntimeStatus) : String :=
  "stage=" ++ r.stage ++
  ";hardware=" ++ (r.hardware.getD "null") ++
  ";requested_hardware=" ++ (r.requested_hardware.getD "null") ++
  ";sleep_time=" ++ (r.sleep_time.map toString).getD "null" ++
  ";raw_data=" ++ r.raw_data

/-- Outcome of one CLI invocation: process exit code, stdout and stderr
lines, and the number of remote calls attempted. -/
structure CliResult where
  exitCode : Nat
  out : List String
  err : List String
  calls : Nat
deriving DecidableEq, Repr

/-- `main` after argument parsing: `cmd = none` models `args.command` being
absent (help text, exit 1, before any token resolution); otherwise the token
is resolved and the matching operation runs, with list and user falling
through to the implicit exit 0 and the other four commands exiting 1 when
the result is falsy. -/
def main (hub : Hub) (env : Env) (tokenFlag : Option String)
    (cmd : Option Command) : CliResult :=
  match cmd with
  | none => ⟨1, [usageText], [], 0⟩
  | some c =>
    let tok := resolveToken tokenFlag env
    match c with
    | .list a s l =>
      let r := list_spaces hub a s l tok.value
      ⟨0, r.out ++ [renderSummaries r.value], tok.err ++ r.err, tok.calls + r.calls⟩
    | .info sid =>
      let r := get_space_info hub sid tok.value
      match r.value with
      | some info => ⟨0, r.out ++ [renderDetail info], tok.err ++ r.err, tok.calls + r.calls⟩
      | none => ⟨1, r.out, tok.err ++ r.err, tok.calls + r.calls⟩
    | .restart sid =>
      let r := restart_space hub sid tok.value
      ⟨if r.value then 0 else 1, r.out, tok.err ++ r.err, tok.calls + r.calls⟩
    | .pause sid =>
      let r := pause_space hub sid tok.value
      ⟨if r.value then 0 else 1, r.out, tok.err ++ r.err, tok.calls + r.calls⟩
    | .runtime sid =>
      let r := get_space_runtime hub sid tok.value
      match r.value with
      | some rt => ⟨0, r.out ++ [renderRuntime rt], tok.err ++ r.err, tok.calls + r.calls⟩
      | none => ⟨1, r.out, tok.err ++ r.err, tok.calls + r.calls⟩
    | .user u =>
      let r := list_user_spaces hub u tok.value
      ⟨0, r.out ++ [renderSummaries r.value], tok.err ++ r.err, tok.calls + r.calls⟩

/-! Concrete fixtures used by witness theorems: a remote space with every
optional attribute absent, a space lacking the required `id` attribute, a
runtime object lacking `stage`, and fake clients serving them or failing. -/

/-- A space response carrying only the unguarded required attributes. -/
def bareSpaceObj : SpaceObj :=
  ⟨some "alice/demo", some "alice", some "abc123", none, none, none, none, none, none⟩

/-- A runtime response carrying only the unguarded `stage` attribute. -/
def bareRuntimeObj : RuntimeObj := ⟨some "RUNNING", none, none, none, "raw"⟩

/-- A space response lacking the required `id` attribute. -/
def badSpaceObj : SpaceObj :=
  ⟨none, some "alice", some "abc123", none, none, none, none, none, none⟩

/-- A runtime response lacking the required `stage` attribute. -/
def badRuntimeObj : RuntimeObj := ⟨none, none, none, none, "raw"⟩

/-- A fake client answering every call with the bare fixtures. -/
def bareHub : Hub :=
  ⟨fun _ _ _ _ => .ok [bareSpaceObj],
   fun _ _ => .ok bareSpaceObj,
   fun _ _ => .ok (),
   fun _ _ => .ok (),
   fun _ _ => .ok bareRuntimeObj⟩

/-- A fake client answering every call with the deficient fixtures. -/
def badHub : Hub :=
  ⟨fun _ _ _ _ => .ok [badSpaceObj],
   fun _ _ => .ok badSpaceObj,
   fun _ _ => .ok (),
   fun _ _ => .ok (),
   fun _ _ => .ok badRuntimeObj⟩

/-- A fake client failing every call with an HTTP error. -/
def failHub : Hub :=
  ⟨fun _ _ _ _ => .error (.http "404 Client Error"),
   fun _ _ => .error (.http "404 Client Error"),
   fun _ _ => .error (.http "404 Client Error"),
   fun _ _ => .error (.http "404 Client Error"),
   fun _ _ => .error (.http "404 Client Error")⟩

/-- Claim C1: for every space id, `restart_space` and `pause_space` invoked
with an absent (`None`) or empty (`""`) token return `False`, make zero
remote calls, and print exactly the token-required error to stderr. -/
theorem C1_mutating_ops_fail_without_token (hub : Hub) (space_id : String) :
    restart_space hub space_id none =
      ⟨false, [], ["Error: Token is required to restart a space."], 0⟩ ∧
    restart_space hub space_id (some "") =
      ⟨false, [], ["Error: Token is required to restart a space."], 0⟩ ∧
    pause_space hub space_id none =
      ⟨false, [], ["Error: Token is required to pause a space."], 0⟩ ∧
    pause_space hub space_id (some "") =
      ⟨false, [], ["Error: Token is required to pause a space."], 0⟩ := by
  have he : truthy (some "") = false := by decide
  refine ⟨rfl, ?_, rfl, ?_⟩ <;> simp [restart_space, pause_space, he]

/-- Claim C4: for every username and token, `list_user_spaces` returns
exactly `list_spaces` with the author bound to the username and limit 100
(search left at its default). -/
theorem C4_list_user_spaces_equiv (hub : Hub) (u : String) (token : Option String) :
    list_user_spaces hub u token = list_spaces hub (some u) none 100 token := rfl

/-- Claim C8: invoking the CLI with no subcommand prints the usage text and
exits with code 1, whatever the environment, token flag, or remote client. -/
theorem C8_no_subcommand_usage (hub : Hub) (env : Env) (flag : Option String) :
    main hub env flag none = ⟨1, [usageText], [], 0⟩ := rfl

/-- Claim C10: a CLI invocation with an explicit but empty `--token` flag
behaves exactly like one with the flag omitted, for every command,
environment, and remote client: the empty value is never used and token
resolution falls through to the environment variables. -/
theorem C10_empty_flag_falls_through (hub : Hub) (env : Env) (cmd : Option Command) :
    main hub env (some "") cmd = main hub env none cmd := by
  have he : String.isEmpty "" = true := by decide
  have h : resolveToken (some "") env = resolveToken none env := by
    simp [resolveToken, truthy, he]
  cases cmd with
  | none => rfl
  | some c => cases c <;> simp only [main, h]

/-- Claim C7 counterexample: with `--token ""` given explicitly and
`HF_TOKEN` set, resolution does not select the flag value; it falls through
to the environment, so the explicit flag is not selected whenever given. -/
theorem C7_counterexample :
    (resolveToken (some "") ⟨some "envtok", none⟩).value = some "envtok" ∧
    (resolveToken (some "") ⟨some "envtok", none⟩).value ≠ some "" := by
  decide

/-- Claim C7 (amended): token resolution selects the explicit `--token` flag
exactly when it is given non-empty; otherwise the first truthy of `HF_TOKEN`
then `HUGGINGFACE_TOKEN`; otherwise the resolved token is empty or absent,
and the warning is printed to stderr exactly when the resolved token is
empty or absent. -/
theorem C7_token_resolution (flag : Option String) (env : Env) :
    (resolveToken flag env).value =
      (if truthy flag then flag
       else if truthy env.hf_token then env.hf_token
       else env.huggingface_token) ∧
    (resolveToken flag env).err =
      (if truthy (resolveToken flag env).value then [] else tokenWarning) := by
  cases hf : truthy flag <;> cases he : truthy env.hf_token <;>
    cases hg : truthy env.huggingface_token <;>
    simp [resolveToken, get_token, pyOr, hf, he, hg]

/-- Building a summary fails (with an AttributeError-style generic
exception) whenever one of the unguarded fields `id`, `author`, `sha` is
absent from the response. -/
theorem buildSummary_missing_required (obj : SpaceObj)
    (h : obj.id = none ∨ obj.author = none ∨ obj.sha = none) :
    ∃ m, buildSummary obj = .error (.other m) := by
  cases hid : obj.id with
  | none =>
    refine ⟨"AttributeError: id", ?_⟩
    unfold buildSummary
    rw [hid]
    rfl
  | some i =>
    cases ha : obj.author with
    | none =>
      refine ⟨"AttributeError: author", ?_⟩
      unfold buildSummary
      rw [hid, ha]
      rfl
    | some au =>
      cases hs : obj.sha with
      | none =>
        refine ⟨"AttributeError: sha", ?_⟩
        unfold buildSummary
        rw [hid, ha, hs]
        rfl
      | some sh =>
        rcases h with h | h | h
        · simp [hid] at h
        · simp [ha] at h
        · simp [hs] at h

/-- Building a detail record fails the same way on a missing required
field. -/
theorem buildDetail_missing_required (obj : SpaceObj)
    (h : obj.id = none ∨ obj.author = none ∨ obj.sha = none) :
    ∃ m, buildDetail obj = .error (.other m) := by
  cases hid : obj.id with
  | none =>
    refine ⟨"AttributeError: id", ?_⟩
    unfold buildDetail
    rw [hid]
    rfl
  | some i =>
    cases ha : obj.author with
    | none =>
      refine ⟨"AttributeError: author", ?_⟩
      unfold buildDetail
      rw [hid, ha]
      rfl
    | some au =>
      cases hs : obj.sha with
      | none =>
        refine ⟨"AttributeError: sha", ?_⟩
        unfold buildDetail
        rw [hid, ha, hs]
        rfl
      | some sh =>
        rcases h with h | h | h
        · simp [hid] at h
        · simp [ha] at h
        · simp [hs] at h

/-- If one space in the remote listing makes its summary fail, the whole
loop fails. -/
theorem buildSummaries_error_of_mem (spaces : List SpaceObj) (x : SpaceObj)
    (hx : x ∈ spaces) (e : PyErr) (hf : buildSummary x = .error e) :
    ∃ e2, buildSummaries spaces = .error e2 := by
  induction spaces with
  | nil => cases hx
  | cons a t ih =>
    cases hx with
    | head =>
      refine ⟨e, ?_⟩
      unfold buildSummaries
      rw [hf]
      rfl
    | tail _ hmem =>
      obtain ⟨e2, h2⟩ := ih hmem
      cases hb : buildSummary a with
      | error eb =>
        refine ⟨eb, ?_⟩
        unfold buildSummaries
        rw [hb]
        rfl
      | ok d =>
        refine ⟨e2, ?_⟩
        unfold buildSummaries
        rw [hb]
        show (buildSummaries t).bind _ = _
        rw [h2]
        rfl

/-- Claim C2: a record built from a remote response in which every optional
(guarded) field is absent is constructed without failure, and every
nullable field of the resulting record is `none` (with the non-nullable
guarded fields at their defaults `false` and `0`). -/
theorem C2_optional_fields_absent (hub : Hub) (a s tok : Option String) (l : Int)
    (sid : String) (i au sh st rep : String)
    (hlist : hub.list_spaces tok a s l =
      .ok [⟨some i, some au, some sh, none, none, none, none, none, none⟩])
    (hinfo : hub.space_info tok sid =
      .ok ⟨some i, some au, some sh, none, none, none, none, none, none⟩)
    (hrt : hub.get_space_runtime tok sid = .ok ⟨some st, none, none, none, rep⟩) :
    (list_spaces hub a s l tok).value = [⟨i, au, sh, none, false, 0, none⟩] ∧
    (get_space_info hub sid tok).value =
      some ⟨i, au, sh, none, false, 0, none, none, none, none⟩ ∧
    (get_space_runtime hub sid tok).value = some ⟨st, none, none, none, rep⟩ := by
  refine ⟨?_, ?_, ?_⟩
  · unfold list_spaces
    rw [hlist]
    rfl
  · unfold get_space_info
    rw [hinfo]
    rfl
  · unfold get_space_runtime
    rw [hrt]
    rfl

/-- Witness for C2 at the concrete bare fixtures. -/
theorem C2_optional_fields_absent_witness :
    (list_spaces bareHub none none 20 none).value =
      [⟨"alice/demo", "alice", "abc123", none, false, 0, none⟩] ∧
    (get_space_info bareHub "alice/demo" none).value =
      some ⟨"alice/demo", "alice", "abc123", none, false, 0, none, none, none, none⟩ ∧
    (get_space_runtime bareHub "alice/demo" none).value =
      some ⟨"RUNNING", none, none, none, "raw"⟩ :=
  C2_optional_fields_absent bareHub none none none 20 "alice/demo"
    "alice/demo" "alice" "abc123" "RUNNING" "raw" rfl rfl rfl

/-- Claim C3: whenever the remote listing call fails, `list_spaces` returns
the empty list and prints the diagnostic to stderr instead of propagating
the error, and `list_user_spaces` consequently does the same. -/
theorem C3_list_spaces_swallows_errors (hub : Hub) (author search token : Option String)
    (limit : Int) (e : PyErr) (u : String) :
    (hub.list_spaces token author search limit = .error e →
      (list_spaces hub author search limit token).value = [] ∧
      (list_spaces hub author search limit token).err =
        ["Error listing spaces: " ++ e.msg]) ∧
    (hub.list_spaces token (some u) none 100 = .error e →
      (list_user_spaces hub u token).value = [] ∧
      (list_user_spaces hub u token).err = ["Error listing spaces: " ++ e.msg]) := by
  constructor
  · intro h
    unfold list_spaces
    rw [h]
    exact ⟨rfl, rfl⟩
  · intro h
    unfold list_user_spaces list_spaces
    rw [h]
    exact ⟨rfl, rfl⟩

/-- Witness for C3 at a concrete always-failing client. -/
theorem C3_list_spaces_swallows_errors_witness :
    ((list_spaces failHub none none 20 none).value = [] ∧
      (list_spaces failHub none none 20 none).err =
        ["Error listing spaces: " ++ (PyErr.http "404 Client Error").msg]) ∧
    (list_user_spaces failHub "alice" none).value = [] :=
  ⟨(C3_list_spaces_swallows_errors failHub none none none 20
      (.http "404 Client Error") "alice").1 rfl,
   ((C3_list_spaces_swallows_errors failHub none none none 20
      (.http "404 Client Error") "alice").2 rfl).1⟩

/-- Claim C6: `get_space_info` returns `none` on any failure of the fetch or
the normalization; an HTTP-level failure differs from any other failure only
in the stderr diagnostic, never in the returned value. -/
theorem C6_info_none_on_failure (hub : Hub) (sid : String) (token : Option String)
    (e : PyErr) (m : String) :
    ((hub.space_info token sid).bind buildDetail = .error e →
      (get_space_info hub sid token).value = none) ∧
    (hub.space_info token sid = .error (.http m) →
      get_space_info hub sid token =
        ⟨none, [], ["Error getting space info: " ++ m], 1⟩) ∧
    (hub.space_info token sid = .error (.other m) →
      get_space_info hub sid token =
        ⟨none, [], ["Unexpected error: " ++ m], 1⟩) := by
  refine ⟨?_, ?_, ?_⟩ <;> intro h <;> unfold get_space_info
  · rw [h]
    cases e <;> rfl
  · rw [h]
    rfl
  · rw [h]
    rfl

/-- Witness for C6 at a concrete failing client. -/
theorem C6_info_none_on_failure_witness :
    get_space_info failHub "alice/demo" none =
      ⟨none, [], ["Error getting space info: " ++ "404 Client Error"], 1⟩ :=
  (C6_info_none_on_failure failHub "alice/demo" none
    (.http "404 Client Error") "404 Client Error").2.1 rfl

/-- Claim C9: the fields `id`, `author`, `sha` (listing and info) and
`stage` (runtime) are read without a presence guard, so a remote response
lacking one of them degrades the whole operation to its error result (empty
list or `none`) rather than producing a record with that field null. -/
theorem C9_required_fields_unguarded (hub : Hub) (a s token : Option String)
    (l : Int) (sid : String) (spaces : List SpaceObj) (obj : SpaceObj)
    (r : RuntimeObj) :
    (hub.list_spaces token a s l = .ok spaces → obj ∈ spaces →
      (obj.id = none ∨ obj.author = none ∨ obj.sha = none) →
      (list_spaces hub a s l token).value = [] ∧
      (list_spaces hub a s l token).err ≠ []) ∧
    (hub.space_info token sid = .ok obj →
      (obj.id = none ∨ obj.author = none ∨ obj.sha = none) →
      (get_space_info hub sid token).value = none) ∧
    (hub.get_space_runtime token sid = .ok r → r.stage = none →
      (get_space_runtime hub sid token).value = none) := by
  refine ⟨?_, ?_, ?_⟩
  · intro hok hmem hmiss
    obtain ⟨m, hm⟩ := buildSummary_missing_required obj hmiss
    obtain ⟨e2, h2⟩ := buildSummaries_error_of_mem spaces obj hmem _ hm
    have hcomp : (hub.list_spaces token a s l).bind buildSummaries = .error e2 := by
      rw [hok]
      exact h2
    unfold list_spaces
    rw [hcomp]
    exact ⟨rfl, by simp⟩
  · intro hok hmiss
    obtain ⟨m, hm⟩ := buildDetail_missing_required obj hmiss
    have hcomp : (hub.space_info token sid).bind buildDetail = .error (.other m) := by
      rw [hok]
      exact hm
    unfold get_space_info
    rw [hcomp]
  · intro hok hst
    have hb : buildRuntime r = .error (.other "AttributeError: stage") := by
      unfold buildRuntime
      rw [hst]
      rfl
    have hcomp : (hub.get_space_runtime token sid).bind buildRuntime =
        .error (.other "AttributeError: stage") := by
      rw [hok]
      exact hb
    unfold get_space_runtime
    rw [hcomp]

/-- Witness for C9 at the concrete deficient fixtures. -/
theorem C9_required_fields_unguarded_witness :
    (list_spaces badHub none none 20 none).value = [] ∧
    (get_space_info badHub "alice/demo" none).value = none ∧
    (get_space_runtime badHub "alice/demo" none).value = none :=
  ⟨((C9_required_fields_unguarded badHub none none none 20 "alice/demo"
      [badSpaceObj] badSpaceObj badRuntimeObj).1 rfl
      (List.mem_singleton.mpr rfl) (Or.inl rfl)).1,
   (C9_required_fields_unguarded badHub none none none 20 "alice/demo"
      [badSpaceObj] badSpaceObj badRuntimeObj).2.1 rfl (Or.inl rfl),
   (C9_required_fields_unguarded badHub none none none 20 "alice/demo"
      [badSpaceObj] badSpaceObj badRuntimeObj).2.2 rfl rfl⟩

/-- Claim C5: the CLI exits 1 exactly when an info, restart, pause, or
runtime command came back absent or false; the list and user commands
always exit 0, whatever the remote client did. -/
theorem C5_exit_code_contract (hub : Hub) (env : Env) (flag : Option String)
    (a s : Option String) (l : Int) (sid rid pid qid u : String) :
    (main hub env flag (some (.list a s l))).exitCode = 0 ∧
    (main hub env flag (some (.user u))).exitCode = 0 ∧
    (main hub env flag (some (.info sid))).exitCode =
      (if (get_space_info hub sid (resolveToken flag env).value).value.isSome
       then 0 else 1) ∧
    (main hub env flag (some (.restart rid))).exitCode =
      (if (restart_space hub rid (resolveToken flag env).value).value
       then 0 else 1) ∧
    (main hub env flag (some (.pause pid))).exitCode =
      (if (pause_space hub pid (resolveToken flag env).value).value
       then 0 else 1) ∧
    (main hub env flag (some (.runtime qid))).exitCode =
      (if (get_space_runtime hub qid (resolveToken flag env).value).value.isSome
       then 0 else 1) := by
  refine ⟨rfl, rfl, ?_, rfl, rfl, ?_⟩
  · cases h : (get_space_info hub sid (resolveToken flag env).value).value with
    | none => simp [main, h]
    | some d => simp [main, h]
  · cases h : (get_space_runtime hub qid (resolveToken flag env).value).value with
    | none => simp [main, h]
    | some rt => simp [main, h]

end SpaceOps
